import Mathlib

/-!
Shallow embedding of the discovery-report generator (`src/app.py`):
the Markdown-to-DOCX converter (`markdown_to_docx`), the payload
assembler (`build_payload_from_state` with `clean_text`), and the
session-level generation flow (`run_generation_from_output`,
`clear_report`).  Lines of text are modelled as `List Char`; Python's
whitespace-stripping methods are modelled with `Char.isWhitespace`
(the ASCII cases, which cover all behaviour the claims exercise).
-/

/-- `l` starts with the pattern `p` — Python's `str.startswith`. -/
def listStartsWith (l : List Char) : List Char → Bool
  | [] => true
  | b :: bs =>
    match l with
    | [] => false
    | a :: as => a == b && listStartsWith as bs

/-- One fuel-metered pass of Python's `str.replace(pat, repl)` restricted to
`repl = ""`: remove every leftmost, non-overlapping occurrence of `pat`.
Each step consumes one unit of fuel and at least one character, so fuel
equal to the length of the list always suffices. -/
def removeAllFuel (pat : List Char) : Nat → List Char → List Char
  | 0, l => l
  | fuel + 1, l =>
    match l with
    | [] => []
    | c :: cs =>
      if listStartsWith (c :: cs) pat then
        removeAllFuel pat fuel (cs.drop (pat.length - 1))
      else
        c :: removeAllFuel pat fuel cs

/-- Python's `line.replace(pat, "")` for a non-empty pattern `pat`. -/
def removeAll (pat l : List Char) : List Char :=
  removeAllFuel pat l.length l

/-- `pat` occurs as a contiguous sublist of `l` (at any position). -/
def hasSubstr (pat : List Char) : List Char → Bool
  | [] => listStartsWith [] pat
  | c :: cs => listStartsWith (c :: cs) pat || hasSubstr pat cs

/-- Python `str.lstrip()`. -/
def lstrip (l : List Char) : List Char := l.dropWhile Char.isWhitespace

/-- Python `str.rstrip()`. -/
def rstrip (l : List Char) : List Char := List.rdropWhile Char.isWhitespace l

/-- Python `str.strip()`. -/
def strip (l : List Char) : List Char := lstrip (rstrip l)

/-- The literal prefix `"# "` from `markdown_to_docx`. -/
def h1pat : List Char := ['#', ' ']

/-- The literal prefix `"## "` from `markdown_to_docx`. -/
def h2pat : List Char := ['#', '#', ' ']

/-- The literal prefix `"### "` from `markdown_to_docx`. -/
def h3pat : List Char := ['#', '#', '#', ' ']

/-- The literal bullet prefix `"- "`. -/
def b1pat : List Char := ['-', ' ']

/-- The literal bullet prefix `"* "`. -/
def b2pat : List Char := ['*', ' ']

/-- One element of the python-docx document body: `doc.add_heading(text, level)`,
`doc.add_paragraph(text, style="List Bullet")`, or `doc.add_paragraph(text)`
(a blank spacer line is `add_paragraph("")`, i.e. `para []`). -/
inductive DocxElem where
  | heading (level : Nat) (text : List Char)
  | bullet (text : List Char)
  | para (text : List Char)
deriving DecidableEq

/-- The per-line branch chain of `markdown_to_docx`, applied to the
already right-stripped line. -/
def classifyBody (line : List Char) : DocxElem :=
  if strip line = [] then .para []
  else if listStartsWith line h3pat then .heading 3 (removeAll h3pat line)
  else if listStartsWith line h2pat then .heading 2 (removeAll h2pat line)
  else if listStartsWith line h1pat then .heading 1 (removeAll h1pat line)
  else if listStartsWith (lstrip line) b1pat || listStartsWith (lstrip line) b2pat then
    .bullet ((lstrip line).drop 2)
  else .para line

/-- Processing of one raw line of `markdown_to_docx`: `line = raw.rstrip()`
followed by the branch chain. -/
def classifyLine (raw : List Char) : DocxElem :=
  classifyBody (rstrip raw)

/-- Python `str.split("\n")` (keeps empty parts, including a trailing one). -/
def splitOnNl : List Char → List (List Char)
  | [] => [[]]
  | c :: cs =>
    if c = '\n' then [] :: splitOnNl cs
    else
      match splitOnNl cs with
      | [] => [[c]]
      | line :: rest => (c :: line) :: rest

/-- Python `str.splitlines()` for newline-separated text: like splitting on
the separator but without a trailing empty part (and `[]` on `""`). -/
def splitlines (md : List Char) : List (List Char) :=
  match (splitOnNl md).getLast? with
  | some [] => (splitOnNl md).dropLast
  | _ => splitOnNl md

/-- The document object built by `markdown_to_docx`: the "Normal" style set
once up front (Calibri, 11pt) and the list of emitted body elements. -/
structure DocxDoc where
  fontName : String
  fontSizePt : Nat
  body : List DocxElem
deriving DecidableEq

/-- `markdown_to_docx(md_text)`: style setup, then one pass over the lines. -/
def markdown_to_docx (md_text : String) : DocxDoc :=
  { fontName := "Calibri"
    fontSizePt := 11
    body := (splitlines md_text.data).map classifyLine }

/-- `clean_text(x)` from the source: `(x or "").strip()`.  The session store
may lack the key (`none`, the `.get(key, "")` default) or hold a string;
both the missing-key default and a `None`-ish absent value normalise to
`""` before stripping. -/
def clean_text (x : Option String) : String := String.mk (strip (x.getD "").data)

/-- The Streamlit session keys read by `build_payload_from_state` and
`run_generation_from_output`: `none` models a key never written. -/
structure FormState where
  client_name : Option String := none
  meeting_type : Option String := none
  project_name : Option String := none
  transcript : Option String := none
  objective : Option String := none
  why_now : Option String := none
  beneficiaries : Option String := none
  impacted_people : Option String := none
  kpis : Option String := none
  constraints_if_not_done : Option String := none
  internal_challenges : Option String := none
  org_changes : Option String := none
  ceo_info : Option String := none
  prior_ceo_issues : Option String := none
  vendor_reason : Option String := none
  listening_issue : Option String := none
  ownership_misalignment : Option String := none
  contracts : Option String := none
  ma_history : Option String := none
  budget_duration_payment : Option String := none
  long_term : Option String := none
  include_open_questions : Option Bool := none
  include_docx : Option Bool := none
deriving DecidableEq

/-- The `report_constraints` sub-dict of the payload. -/
structure ReportConstraints where
  no_solutions : Bool
  include_open_questions : Bool
deriving DecidableEq

/-- The payload dict built by `build_payload_from_state`; the
`structured_inputs` sub-dict is kept as its ordered key/value list. -/
structure Payload where
  client_name : String
  meeting_type : String
  project_name : String
  transcript_or_notes : String
  structured_inputs : List (String × String)
  report_constraints : ReportConstraints
deriving DecidableEq

/-- `build_payload_from_state()` reading the current session state. -/
def build_payload_from_state (s : FormState) : Payload :=
  { client_name :=
      if clean_text s.client_name = "" then "Client" else clean_text s.client_name
    meeting_type := s.meeting_type.getD "Discovery / Intake"
    project_name := clean_text s.project_name
    transcript_or_notes := clean_text s.transcript
    structured_inputs :=
      [("project_objective", clean_text s.objective),
       ("why_initiated_problem_trigger", clean_text s.why_now),
       ("benefiting_departments", clean_text s.beneficiaries),
       ("impacted_people", clean_text s.impacted_people),
       ("kpi_burden", clean_text s.kpis),
       ("if_not_done_consequences", clean_text s.constraints_if_not_done),
       ("internal_challenges", clean_text s.internal_challenges),
       ("org_changes", clean_text s.org_changes),
       ("ceo_info", clean_text s.ceo_info),
       ("previous_ceo_problems", clean_text s.prior_ceo_issues),
       ("why_external_vendor", clean_text s.vendor_reason),
       ("why_not_listening_internally", clean_text s.listening_issue),
       ("ownership_and_misalignment", clean_text s.ownership_misalignment),
       ("contracts_dependencies", clean_text s.contracts),
       ("ma_and_culture", clean_text s.ma_history),
       ("budget_duration_payment", clean_text s.budget_duration_payment),
       ("long_term_vision_and_next", clean_text s.long_term)]
    report_constraints :=
      { no_solutions := true
        include_open_questions := s.include_open_questions.getD true } }

/-- The three session-state slots written by the generation flow. -/
structure SessionState where
  report_md : String
  docx_bytes : Option DocxDoc
  last_error : String
deriving DecidableEq

/-- Outcome of the single external model call made by `generate_report`:
either the returned Markdown text or the message of the raised exception. -/
inductive GenResult where
  | success (text : String)
  | failure (message : String)
deriving DecidableEq

/-- The validation message stored on an incomplete input. -/
def incompleteMsg : String :=
  "Please paste at least a transcript/notes OR fill at least one structured field."

/-- The guard of `run_generation_from_output`:
`not payload["transcript_or_notes"] and all(not v for v in payload["structured_inputs"].values())`. -/
def incompleteGate (p : Payload) : Bool :=
  (p.transcript_or_notes == "") && p.structured_inputs.all (fun kv => kv.2 == "")

/-- The session state after the validation branch fires: it stores the
validation message and writes `""`/`None` over `report_md`/`docx_bytes`. -/
def rejectedState : SessionState :=
  { report_md := "", docx_bytes := none, last_error := incompleteMsg }

/-- `run_generation_from_output()`: validation gate, then the single external
call.  On success the report is stored and the DOCX derived when the
`include_docx` option (default `True`) is set; any exception from the call
is caught once and the three slots are overwritten. -/
def run_generation_from_output (form : FormState) (gen : GenResult)
    (_st : SessionState) : SessionState :=
  if incompleteGate (build_payload_from_state form) then rejectedState
  else
    match gen with
    | .success text =>
      { report_md := text
        docx_bytes :=
          if form.include_docx.getD true then some (markdown_to_docx text) else none
        last_error := "" }
    | .failure msg =>
      { report_md := ""
        docx_bytes := none
        last_error := "Generation failed: " ++ msg }

/-- `clear_report()`. -/
def clear_report (_st : SessionState) : SessionState :=
  { report_md := "", docx_bytes := none, last_error := "" }

/-- The stored document is absent or derived from the stored report. -/
def docxConsistent (s : SessionState) : Prop :=
  s.docx_bytes = none ∨ s.docx_bytes = some (markdown_to_docx s.report_md)

/-- A list of characters with no leading and no trailing whitespace. -/
def noEdgeWs (l : List Char) : Prop :=
  l.dropWhile Char.isWhitespace = l ∧
    l.reverse.dropWhile Char.isWhitespace = l.reverse

instance (l : List Char) : Decidable (noEdgeWs l) := by
  unfold noEdgeWs; infer_instance

/-- A fixed session state used to instantiate witnesses. -/
def s0 : SessionState := { report_md := "", docx_bytes := none, last_error := "" }

/-- A session state holding a previously generated report. -/
def s1 : SessionState :=
  { report_md := "OLD", docx_bytes := some (markdown_to_docx "# T"), last_error := "" }

/-! Helper lemmas about stripping. -/

/-- Dropping a failing element appended on the right commutes with `dropWhile`. -/
theorem dropWhile_append_singleton {p : Char → Bool} {c : Char} (hc : p c = false)
    (ys : List Char) : (ys ++ [c]).dropWhile p = ys.dropWhile p ++ [c] := by
  induction ys with
  | nil => simp [List.dropWhile_cons, hc]
  | cons y ys ih =>
    by_cases h : p y = true
    · simp [List.dropWhile_cons, h, ih]
    · simp [List.dropWhile_cons, h]

theorem lstrip_cons_of_nonws {c : Char} (hc : c.isWhitespace = false) (l : List Char) :
    lstrip (c :: l) = c :: l := by
  simp [lstrip, List.dropWhile_cons, hc]

theorem rstrip_cons_of_nonws {c : Char} (hc : c.isWhitespace = false) (l : List Char) :
    rstrip (c :: l) = c :: rstrip l := by
  unfold rstrip List.rdropWhile
  rw [List.reverse_cons, dropWhile_append_singleton hc, List.reverse_append]
  simp

theorem rstrip_idem (l : List Char) : rstrip (rstrip l) = rstrip l :=
  List.rdropWhile_idempotent _ _

theorem strip_cons_ne_nil {c : Char} (hc : c.isWhitespace = false) (l : List Char) :
    strip (c :: l) ≠ [] := by
  unfold strip
  rw [rstrip_cons_of_nonws hc, lstrip_cons_of_nonws hc]
  simp

/-- A prefix of a list that `dropWhile` leaves unchanged is itself unchanged. -/
theorem dropWhile_eq_self_of_front {p : Char → Bool} {s m : List Char}
    (hm : m.dropWhile p = m) (hpre : s <+: m) : s.dropWhile p = s := by
  cases s with
  | nil => rfl
  | cons a s2 =>
    obtain ⟨t, ht⟩ := hpre
    have ha : p a = false := by
      by_contra hcontra
      have ha2 : p a = true := by simpa using hcontra
      rw [← ht, List.cons_append, List.dropWhile_cons, if_pos ha2] at hm
      have hlen := congrArg List.length hm
      have hle := (List.dropWhile_suffix (l := s2 ++ t) p).length_le
      have hb : (s2 ++ t).length = s2.length + t.length := List.length_append _ _
      simp at hlen
      omega
    simp [List.dropWhile_cons, ha]

theorem strip_noEdgeWs (l : List Char) : noEdgeWs (strip l) := by
  constructor
  · exact List.dropWhile_idempotent _ _
  · have hsuf : strip l <:+ rstrip l := List.dropWhile_suffix _
    have hpre : (strip l).reverse <+: (rstrip l).reverse :=
      List.reverse_prefix.mpr hsuf
    have hm : ((rstrip l).reverse).dropWhile Char.isWhitespace = (rstrip l).reverse := by
      unfold rstrip List.rdropWhile
      rw [List.reverse_reverse]
      exact List.dropWhile_idempotent _ _
    exact dropWhile_eq_self_of_front hm hpre

theorem clean_text_noEdgeWs (x : Option String) : noEdgeWs (clean_text x).data :=
  strip_noEdgeWs _

/-! Helper lemmas about `listStartsWith` and `removeAll`. -/

theorem listStartsWith_nil_pat (l : List Char) : listStartsWith l [] = true := by
  cases l <;> rfl

theorem listStartsWith_append_self (p rest : List Char) :
    listStartsWith (p ++ rest) p = true := by
  induction p with
  | nil => exact listStartsWith_nil_pat rest
  | cons a as ih => simp [listStartsWith, ih]

/-- The fuel argument of `removeAllFuel` is irrelevant above the list length. -/
theorem removeAllFuel_congr (pat : List Char) :
    ∀ f1 f2 l, l.length ≤ f1 → l.length ≤ f2 →
      removeAllFuel pat f1 l = removeAllFuel pat f2 l := by
  intro f1
  induction f1 with
  | zero =>
    intro f2 l h1 _
    have : l = [] := List.eq_nil_of_length_eq_zero (Nat.le_zero.mp h1)
    subst this
    cases f2 <;> rfl
  | succ f ih =>
    intro f2 l h1 h2
    cases l with
    | nil => cases f2 <;> rfl
    | cons c cs =>
      cases f2 with
      | zero => simp at h2
      | succ g =>
        have hcs1 : cs.length ≤ f := by simpa using h1
        have hcs2 : cs.length ≤ g := by simpa using h2
        by_cases hsw : listStartsWith (c :: cs) pat = true
        · have hd1 : (cs.drop (pat.length - 1)).length ≤ f :=
            le_trans (by simpa using List.length_drop_le (pat.length - 1) cs) hcs1
          have hd2 : (cs.drop (pat.length - 1)).length ≤ g :=
            le_trans (by simpa using List.length_drop_le (pat.length - 1) cs) hcs2
          simp only [removeAllFuel, hsw, if_true]
          exact ih g _ hd1 hd2
        · simp only [removeAllFuel, hsw, if_false, Bool.false_eq_true]
          exact congrArg _ (ih g cs hcs1 hcs2)

theorem removeAll_cons_of_not {pat : List Char} {c : Char} {cs : List Char}
    (h : listStartsWith (c :: cs) pat = false) :
    removeAll pat (c :: cs) = c :: removeAll pat cs := by
  unfold removeAll
  simp only [List.length_cons, removeAllFuel, h, if_false, Bool.false_eq_true]

theorem removeAll_append_self {pat : List Char} (hp : pat ≠ []) (rest : List Char) :
    removeAll pat (pat ++ rest) = removeAll pat rest := by
  cases pat with
  | nil => exact absurd rfl hp
  | cons c p2 =>
    have hsw : listStartsWith (c :: (p2 ++ rest)) (c :: p2) = true :=
      listStartsWith_append_self (c :: p2) rest
    have hdrop : List.drop (p2.length + 1 - 1) (p2 ++ rest) = rest := by
      simpa using List.drop_left p2 rest
    show removeAllFuel (c :: p2) ((c :: p2) ++ rest).length ((c :: p2) ++ rest) = _
    rw [List.cons_append]
    simp only [List.length_cons, removeAllFuel, hsw, if_true]
    rw [hdrop]
    exact removeAllFuel_congr _ _ _ _ (by simp) (Nat.le_refl _)

theorem removeAll_of_hasSubstr_false {pat l : List Char}
    (h : hasSubstr pat l = false) : removeAll pat l = l := by
  induction l with
  | nil => rfl
  | cons c cs ih =>
    simp only [hasSubstr, Bool.or_eq_false_iff] at h
    rw [removeAll_cons_of_not h.1, ih h.2]

/-! Helper lemmas about the branch chain of the converter. -/

theorem classifyBody_h3 (rest : List Char) :
    classifyBody (h3pat ++ rest) = DocxElem.heading 3 (removeAll h3pat rest) := by
  have hb : strip (h3pat ++ rest) ≠ [] := strip_cons_ne_nil (by decide) ('#' :: '#' :: ' ' :: rest)
  have h3t : listStartsWith (h3pat ++ rest) h3pat = true := listStartsWith_append_self _ _
  rw [classifyBody, if_neg hb, if_pos h3t, removeAll_append_self (by decide) rest]

theorem classifyBody_h2 (rest : List Char) :
    classifyBody (h2pat ++ rest) = DocxElem.heading 2 (removeAll h2pat rest) := by
  have hb : strip (h2pat ++ rest) ≠ [] := strip_cons_ne_nil (by decide) ('#' :: ' ' :: rest)
  have h3f : listStartsWith (h2pat ++ rest) h3pat = false := rfl
  have h2t : listStartsWith (h2pat ++ rest) h2pat = true := listStartsWith_append_self _ _
  rw [classifyBody, if_neg hb, if_neg (by simp [h3f]), if_pos h2t,
    removeAll_append_self (by decide) rest]

theorem classifyBody_h1 (rest : List Char) :
    classifyBody (h1pat ++ rest) = DocxElem.heading 1 (removeAll h1pat rest) := by
  have hb : strip (h1pat ++ rest) ≠ [] := strip_cons_ne_nil (by decide) (' ' :: rest)
  have h3f : listStartsWith (h1pat ++ rest) h3pat = false := rfl
  have h2f : listStartsWith (h1pat ++ rest) h2pat = false := rfl
  have h1t : listStartsWith (h1pat ++ rest) h1pat = true := listStartsWith_append_self _ _
  rw [classifyBody, if_neg hb, if_neg (by simp [h3f]), if_neg (by simp [h2f]), if_pos h1t,
    removeAll_append_self (by decide) rest]

theorem classifyBody_four_hash (xs : List Char) :
    classifyBody ('#' :: '#' :: '#' :: '#' :: xs) =
      DocxElem.para ('#' :: '#' :: '#' :: '#' :: xs) := by
  have hb : strip ('#' :: '#' :: '#' :: '#' :: xs) ≠ [] :=
    strip_cons_ne_nil (by decide) ('#' :: '#' :: '#' :: xs)
  have h3f : listStartsWith ('#' :: '#' :: '#' :: '#' :: xs) h3pat = false := rfl
  have h2f : listStartsWith ('#' :: '#' :: '#' :: '#' :: xs) h2pat = false := rfl
  have h1f : listStartsWith ('#' :: '#' :: '#' :: '#' :: xs) h1pat = false := rfl
  have hls : lstrip ('#' :: '#' :: '#' :: '#' :: xs) = '#' :: '#' :: '#' :: '#' :: xs :=
    lstrip_cons_of_nonws (by decide) _
  have hbf : (listStartsWith (lstrip ('#' :: '#' :: '#' :: '#' :: xs)) b1pat ||
      listStartsWith (lstrip ('#' :: '#' :: '#' :: '#' :: xs)) b2pat) = false := by
    rw [hls]; rfl
  rw [classifyBody, if_neg hb, if_neg (by simp [h3f]), if_neg (by simp [h2f]),
    if_neg (by simp [h1f]), if_neg (by simp [hbf])]

theorem rstrip_replicate_hash (n : Nat) (l : List Char) :
    rstrip (List.replicate n '#' ++ l) = List.replicate n '#' ++ rstrip l := by
  induction n with
  | zero => simp
  | succ m ih =>
    rw [List.replicate_succ, List.cons_append, rstrip_cons_of_nonws (by decide), ih,
      ← List.cons_append, ← List.replicate_succ]

/-- No message produced by the exception handler equals the validation message. -/
theorem genFailed_ne_incompleteMsg (msg : String) :
    "Generation failed: " ++ msg ≠ incompleteMsg := by
  intro h
  have h2 : ("Generation failed: " ++ msg).data.head? = incompleteMsg.data.head? := by rw [h]
  have h3 : ("Generation failed: " ++ msg).data.head? = some 'G' := rfl
  have h4 : incompleteMsg.data.head? = some 'P' := rfl
  rw [h3, h4] at h2
  exact absurd h2 (by decide)

/-! Claims about the Markdown-to-DOCX converter. -/

/-- Claim C1 counterexample: on the input line "# A # B" the emitted heading
text is "A B" — the later occurrence of the prefix string "# " is removed as
well — and not "A # B" with the later characters unchanged, as the claim
states. -/
theorem C1_counterexample :
    classifyLine ("# A # B".toList) = DocxElem.heading 1 ("A B".toList) ∧
    classifyLine ("# A # B".toList) ≠ DocxElem.heading 1 ("A # B".toList) := by
  decide

/-- Claim C1 (amended): for every input line of the converter whose
right-stripped form starts with "# ", "## ", or "### ", the emitted heading
has level 1, 2, or 3 respectively, and its text is the remainder of the line
after the prefix with every further occurrence of the same prefix string
removed as well (the source strips via str.replace, which removes all
occurrences); whenever the remainder contains no further occurrence of the
prefix, the text is exactly the remainder. -/
theorem C1_heading_levels (raw rest : List Char) :
    (rstrip raw = h1pat ++ rest →
      classifyLine raw = DocxElem.heading 1 (removeAll h1pat rest) ∧
      (hasSubstr h1pat rest = false → classifyLine raw = DocxElem.heading 1 rest)) ∧
    (rstrip raw = h2pat ++ rest →
      classifyLine raw = DocxElem.heading 2 (removeAll h2pat rest) ∧
      (hasSubstr h2pat rest = false → classifyLine raw = DocxElem.heading 2 rest)) ∧
    (rstrip raw = h3pat ++ rest →
      classifyLine raw = DocxElem.heading 3 (removeAll h3pat rest) ∧
      (hasSubstr h3pat rest = false → classifyLine raw = DocxElem.heading 3 rest)) := by
  refine ⟨fun h => ⟨?_, fun hno => ?_⟩, fun h => ⟨?_, fun hno => ?_⟩,
    fun h => ⟨?_, fun hno => ?_⟩⟩
  · rw [classifyLine, h]; exact classifyBody_h1 rest
  · rw [classifyLine, h, classifyBody_h1 rest, removeAll_of_hasSubstr_false hno]
  · rw [classifyLine, h]; exact classifyBody_h2 rest
  · rw [classifyLine, h, classifyBody_h2 rest, removeAll_of_hasSubstr_false hno]
  · rw [classifyLine, h]; exact classifyBody_h3 rest
  · rw [classifyLine, h, classifyBody_h3 rest, removeAll_of_hasSubstr_false hno]

/-- Witness for C1_heading_levels at the concrete line "## Title". -/
theorem C1_witness :
    classifyLine ("## Title".toList) = DocxElem.heading 2 ("Title".toList) :=
  ((C1_heading_levels ("## Title".toList) ("Title".toList)).2.1 (by decide)).2 (by decide)

/-- Claim C7: the converter classifies as a heading only lines whose
right-stripped form starts with "# ", "## ", or "### " (levels 1, 2, 3);
"# A", "## A", "### A" give headings of level 1, 2, 3 with text "A", while
"#### A" — and generally any line of four or more leading '#' followed by a
space — matches none of the three prefixes and is emitted as a plain
paragraph carrying the whole (right-stripped) line. -/
theorem C7_heading_exactness :
    (∀ raw k t, classifyLine raw = DocxElem.heading k t →
      (k = 1 ∧ listStartsWith (rstrip raw) h1pat = true) ∨
      (k = 2 ∧ listStartsWith (rstrip raw) h2pat = true) ∨
      (k = 3 ∧ listStartsWith (rstrip raw) h3pat = true)) ∧
    classifyLine ("# A".toList) = DocxElem.heading 1 ("A".toList) ∧
    classifyLine ("## A".toList) = DocxElem.heading 2 ("A".toList) ∧
    classifyLine ("### A".toList) = DocxElem.heading 3 ("A".toList) ∧
    classifyLine ("#### A".toList) = DocxElem.para ("#### A".toList) ∧
    (∀ m rest, classifyLine (List.replicate (m + 4) '#' ++ ' ' :: rest) =
      DocxElem.para (List.replicate (m + 4) '#' ++ rstrip (' ' :: rest))) := by
  refine ⟨?_, by decide, by decide, by decide, by decide, ?_⟩
  · intro raw k t h
    rw [classifyLine, classifyBody] at h
    by_cases hb : strip (rstrip raw) = []
    · rw [if_pos hb] at h; exact absurd h (by simp)
    rw [if_neg hb] at h
    by_cases hh3 : listStartsWith (rstrip raw) h3pat = true
    · rw [if_pos hh3] at h
      injection h with hk ht
      exact Or.inr (Or.inr ⟨hk.symm, hh3⟩)
    rw [if_neg hh3] at h
    by_cases hh2 : listStartsWith (rstrip raw) h2pat = true
    · rw [if_pos hh2] at h
      injection h with hk ht
      exact Or.inr (Or.inl ⟨hk.symm, hh2⟩)
    rw [if_neg hh2] at h
    by_cases hh1 : listStartsWith (rstrip raw) h1pat = true
    · rw [if_pos hh1] at h
      injection h with hk ht
      exact Or.inl ⟨hk.symm, hh1⟩
    rw [if_neg hh1] at h
    by_cases hbul : (listStartsWith (lstrip (rstrip raw)) b1pat ||
        listStartsWith (lstrip (rstrip raw)) b2pat) = true
    · rw [if_pos hbul] at h; exact absurd h (by simp)
    · rw [if_neg hbul] at h; exact absurd h (by simp)
  · intro m rest
    have hr : rstrip (List.replicate (m + 4) '#' ++ ' ' :: rest) =
        List.replicate (m + 4) '#' ++ rstrip (' ' :: rest) := rstrip_replicate_hash _ _
    have hshape : List.replicate (m + 4) '#' ++ rstrip (' ' :: rest) =
        '#' :: '#' :: '#' :: '#' :: (List.replicate m '#' ++ rstrip (' ' :: rest)) := rfl
    rw [classifyLine, hr, hshape, classifyBody_four_hash]

/-- Witness for the universal part of C7_heading_exactness at "# A". -/
theorem C7_witness :
    (1 = 1 ∧ listStartsWith (rstrip ("# A".toList)) h1pat = true) ∨
    (1 = 2 ∧ listStartsWith (rstrip ("# A".toList)) h2pat = true) ∨
    (1 = 3 ∧ listStartsWith (rstrip ("# A".toList)) h3pat = true) :=
  C7_heading_exactness.1 ("# A".toList) 1 ("A".toList) (by decide)

/-- Claim C8: every line whose left-stripped (right-stripped) form starts with
"- " or "* " becomes a bulleted paragraph whose text is the left-stripped
line minus its first two characters; "- item" and "* item" both give bullet
text "item", and "-item" (no space) falls through to a plain paragraph. -/
theorem C8_bullet_lines :
    (∀ raw, (listStartsWith (lstrip (rstrip raw)) b1pat = true ∨
        listStartsWith (lstrip (rstrip raw)) b2pat = true) →
      classifyLine raw = DocxElem.bullet ((lstrip (rstrip raw)).drop 2)) ∧
    classifyLine ("- item".toList) = DocxElem.bullet ("item".toList) ∧
    classifyLine ("* item".toList) = DocxElem.bullet ("item".toList) ∧
    classifyLine ("-item".toList) = DocxElem.para ("-item".toList) := by
  refine ⟨?_, by decide, by decide, by decide⟩
  intro raw h
  have hidem : rstrip (rstrip raw) = rstrip raw := rstrip_idem raw
  have hne : lstrip (rstrip raw) ≠ [] := by
    intro he
    rw [he] at h
    rcases h with h | h <;> exact absurd h (by decide)
  have hstrip : ¬ strip (rstrip raw) = [] := by
    rw [strip, hidem]; exact hne
  have hbul : (listStartsWith (lstrip (rstrip raw)) b1pat ||
      listStartsWith (lstrip (rstrip raw)) b2pat) = true := by
    rcases h with h | h <;> simp [h]
  have hcne : ∀ c l2, rstrip raw = c :: l2 → (c == '#') = false := by
    intro c l2 hline
    by_cases hw : c.isWhitespace = true
    · have hcc : c ≠ '#' := by
        intro hc; rw [hc] at hw; exact absurd hw (by decide)
      exact beq_eq_false_iff_ne.mpr hcc
    · have hwf : c.isWhitespace = false := by simpa using hw
      have hlsc : lstrip (rstrip raw) = c :: l2 := by
        rw [hline]; exact lstrip_cons_of_nonws hwf _
      rw [hlsc] at h
      have hdash : c = '-' ∨ c = '*' := by
        rcases h with h | h
        · left
          simp [listStartsWith, b1pat] at h
          exact h.1
        · right
          simp [listStartsWith, b2pat] at h
          exact h.1
      rcases hdash with rfl | rfl <;> decide
  cases hline : rstrip raw with
  | nil =>
    exact absurd (show lstrip (rstrip raw) = [] by rw [hline]; rfl) hne
  | cons c l2 =>
    have hc := hcne c l2 hline
    have hh3 : listStartsWith (rstrip raw) h3pat = false := by
      rw [hline]; simp [listStartsWith, h3pat, hc]
    have hh2 : listStartsWith (rstrip raw) h2pat = false := by
      rw [hline]; simp [listStartsWith, h2pat, hc]
    have hh1 : listStartsWith (rstrip raw) h1pat = false := by
      rw [hline]; simp [listStartsWith, h1pat, hc]
    rw [classifyLine, classifyBody, if_neg hstrip, if_neg (by simp [hh3]),
      if_neg (by simp [hh2]), if_neg (by simp [hh1]), if_pos hbul, hline]

/-- Witness for the universal part of C8_bullet_lines at "  - item". -/
theorem C8_witness :
    classifyLine ("  - item".toList) =
      DocxElem.bullet ((lstrip (rstrip ("  - item".toList))).drop 2) :=
  C8_bullet_lines.1 ("  - item".toList) (Or.inl (by decide))

/-! Claims about the payload assembler and the generation flow. -/

/-- A cleaned string is empty exactly when the stripped character list is. -/
theorem clean_text_some_eq_empty_iff (raw : String) :
    clean_text (some raw) = "" ↔ strip raw.data = [] := by
  simp [clean_text, String.ext_iff]

/-- Claim C3 counterexample: the payload built from the empty session nests
seventeen fields under structured_inputs, not sixteen as the claim states. -/
theorem C3_counterexample :
    (build_payload_from_state {}).structured_inputs.length = 17 ∧
    (build_payload_from_state {}).structured_inputs.length ≠ 16 := by
  decide

/-- Claim C3 (amended): for every input, the record produced by the payload
assembler nests exactly seventeen fields (with these fixed keys, in order)
under the structured_inputs key, and report_constraints.no_solutions is true
in every record it produces. -/
theorem C3_structured_seventeen (s : FormState) :
    (build_payload_from_state s).structured_inputs.length = 17 ∧
    (build_payload_from_state s).structured_inputs.map Prod.fst =
      ["project_objective", "why_initiated_problem_trigger", "benefiting_departments",
       "impacted_people", "kpi_burden", "if_not_done_consequences", "internal_challenges",
       "org_changes", "ceo_info", "previous_ceo_problems", "why_external_vendor",
       "why_not_listening_internally", "ownership_and_misalignment",
       "contracts_dependencies", "ma_and_culture", "budget_duration_payment",
       "long_term_vision_and_next"] ∧
    (build_payload_from_state s).report_constraints.no_solutions = true :=
  ⟨rfl, rfl, rfl⟩

/-- Claim C4 counterexample: the meeting_type entry is passed through without
trimming — with the raw session value "  Other  " the assembled record keeps
the untrimmed string, so not every string-valued entry is trimmed. -/
theorem C4_counterexample :
    (build_payload_from_state { meeting_type := some "  Other  " }).meeting_type =
      "  Other  " ∧
    ¬ noEdgeWs ((build_payload_from_state
        { meeting_type := some "  Other  " }).meeting_type.data) := by
  decide

/-- Claim C4 (amended): every raw string field read by the payload assembler
except meeting_type (client_name, project_name, transcript_or_notes, and all
structured fields) is normalized via clean_text — trimmed, with absent or
whitespace-only input becoming the empty string — so those entries carry no
leading or trailing whitespace; meeting_type alone is passed through
unchanged, defaulting to "Discovery / Intake" when absent. -/
theorem C4_fields_trimmed (s : FormState) :
    noEdgeWs ((build_payload_from_state s).client_name.data) ∧
    noEdgeWs ((build_payload_from_state s).project_name.data) ∧
    noEdgeWs ((build_payload_from_state s).transcript_or_notes.data) ∧
    (∀ kv ∈ (build_payload_from_state s).structured_inputs, noEdgeWs kv.2.data) ∧
    (build_payload_from_state s).project_name = clean_text s.project_name ∧
    (build_payload_from_state s).transcript_or_notes = clean_text s.transcript ∧
    (build_payload_from_state s).meeting_type = s.meeting_type.getD "Discovery / Intake" := by
  refine ⟨?_, clean_text_noEdgeWs _, clean_text_noEdgeWs _, ?_, rfl, rfl, rfl⟩
  · by_cases hc : clean_text s.client_name = ""
    · simp only [build_payload_from_state, if_pos hc]
      decide
    · simp only [build_payload_from_state, if_neg hc]
      exact clean_text_noEdgeWs _
  · intro kv hkv
    simp only [build_payload_from_state, List.mem_cons, List.not_mem_nil, or_false] at hkv
    rcases hkv with rfl | rfl | rfl | rfl | rfl | rfl | rfl | rfl | rfl | rfl | rfl | rfl |
      rfl | rfl | rfl | rfl | rfl <;> exact clean_text_noEdgeWs _

/-- Witness for the bounded-universal part of C4_fields_trimmed at a concrete
session state and structured entry. -/
theorem C4_witness :
    noEdgeWs ((("project_objective", clean_text (some "  x  ")) : String × String).2.data) :=
  (C4_fields_trimmed { objective := some "  x  " }).2.2.2.1
    ("project_objective", clean_text (some "  x  ")) (by decide)

/-- Claim C9: client_name is the literal "Client" whenever the raw client-name
field is absent or empty/whitespace-only after trimming, and is the trimmed
input otherwise; raw "  Acme  " yields "Acme". -/
theorem C9_client_default (s : FormState) (raw : String) :
    (s.client_name = none → (build_payload_from_state s).client_name = "Client") ∧
    (s.client_name = some raw → strip raw.data = [] →
      (build_payload_from_state s).client_name = "Client") ∧
    (s.client_name = some raw → strip raw.data ≠ [] →
      (build_payload_from_state s).client_name = clean_text (some raw)) ∧
    (build_payload_from_state { client_name := some "  Acme  " }).client_name = "Acme" := by
  refine ⟨?_, ?_, ?_, by decide⟩
  · intro h
    simp only [build_payload_from_state, h]
    rfl
  · intro h hs
    have he : clean_text (some raw) = "" := (clean_text_some_eq_empty_iff raw).mpr hs
    simp only [build_payload_from_state, h, if_pos he]
  · intro h hs
    have he : ¬ clean_text (some raw) = "" :=
      fun hx => hs ((clean_text_some_eq_empty_iff raw).mp hx)
    simp only [build_payload_from_state, h, if_neg he]

/-- Witness for C9_client_default: a whitespace-only client name defaults. -/
theorem C9_witness :
    (build_payload_from_state { client_name := some "   " }).client_name = "Client" :=
  (C9_client_default { client_name := some "   " } "   ").2.1 rfl (by decide)

/-- Claim C5: generation is rejected with the incomplete-input validation
outcome exactly when transcript_or_notes is empty and every structured value
is empty; this is the only gate — any other payload proceeds to the external
call. -/
theorem C5_validation_iff (form : FormState) (gen : GenResult) (st : SessionState) :
    run_generation_from_output form gen st = rejectedState ↔
      ((build_payload_from_state form).transcript_or_notes = "" ∧
       ∀ kv ∈ (build_payload_from_state form).structured_inputs, kv.2 = "") := by
  constructor
  · intro h
    by_cases hg : incompleteGate (build_payload_from_state form) = true
    · simp only [incompleteGate, Bool.and_eq_true, beq_iff_eq, List.all_eq_true] at hg
      exact ⟨hg.1, fun kv hkv => by simpa using hg.2 kv hkv⟩
    · exfalso
      cases gen with
      | success t =>
        rw [run_generation_from_output, if_neg hg] at h
        have h2 := congrArg SessionState.last_error h
        simp only [rejectedState] at h2
        exact absurd h2 (by decide)
      | failure m =>
        rw [run_generation_from_output, if_neg hg] at h
        have h2 := congrArg SessionState.last_error h
        simp only [rejectedState] at h2
        exact genFailed_ne_incompleteMsg m h2
  · intro hc
    have hg : incompleteGate (build_payload_from_state form) = true := by
      simp only [incompleteGate, Bool.and_eq_true, beq_iff_eq, List.all_eq_true]
      exact ⟨hc.1, fun kv hkv => by simpa using hc.2 kv hkv⟩
    cases gen with
    | success t => rw [run_generation_from_output, if_pos hg]
    | failure m => rw [run_generation_from_output, if_pos hg]

/-- Witness for C5_validation_iff: the all-empty session state is rejected. -/
theorem C5_witness :
    run_generation_from_output {} (GenResult.success "t") s0 = rejectedState :=
  (C5_validation_iff {} (GenResult.success "t") s0).mpr (by decide)

/-- Claim C2 counterexample: with a previously rendered report in the session,
firing the validation rule does not leave report_md and docx_bytes as they
were — it overwrites them with "" and None. -/
theorem C2_counterexample :
    run_generation_from_output {} (GenResult.success "t") s1 = rejectedState ∧
    s1.report_md = "OLD" ∧ rejectedState.report_md = "" ∧
    s1.docx_bytes ≠ none ∧ rejectedState.docx_bytes = none := by
  decide

/-- Claim C2 (amended): when the input-validation rule fires, the flow records
the validation message, clears the prior Rendered Report and Converted
Document (report_md becomes "" and docx_bytes becomes None), and halts before
the external model call — the resulting state is independent of the external
outcome and of the prior session state. -/
theorem C2_validation_clears (form : FormState) (gen gen2 : GenResult)
    (st st2 : SessionState)
    (h : incompleteGate (build_payload_from_state form) = true) :
    run_generation_from_output form gen st = rejectedState ∧
    run_generation_from_output form gen st = run_generation_from_output form gen2 st2 := by
  simp only [run_generation_from_output, if_pos h]
  trivial

/-- Witness for C2_validation_clears at the all-empty session state. -/
theorem C2_witness :
    run_generation_from_output {} (GenResult.success "a") s1 = rejectedState ∧
    run_generation_from_output {} (GenResult.success "a") s1 =
      run_generation_from_output {} (GenResult.failure "b") s0 :=
  C2_validation_clears {} (GenResult.success "a") (GenResult.failure "b") s1 s0 (by decide)

/-- Claim C6: every failure of the external model call is caught at the single
boundary and converted to a stored message "Generation failed: " followed by
the original error text, and both report_md and docx_bytes are reset to
absent; the resulting state is the same whatever the prior state was (no
retry, one call, one outcome). -/
theorem C6_failure_resets (form : FormState) (msg : String) (st : SessionState)
    (h : incompleteGate (build_payload_from_state form) = false) :
    run_generation_from_output form (GenResult.failure msg) st =
      { report_md := "", docx_bytes := none,
        last_error := "Generation failed: " ++ msg } := by
  rw [run_generation_from_output, if_neg (by simp [h])]

/-- Witness for C6_failure_resets with a non-empty transcript and a concrete
failure message. -/
theorem C6_witness :
    run_generation_from_output { transcript := some "x" } (GenResult.failure "boom") s1 =
      { report_md := "", docx_bytes := none, last_error := "Generation failed: boom" } :=
  C6_failure_resets { transcript := some "x" } "boom" s1 (by decide)

/-- Claim C10 counterexample: a successful generation whose model output is
the empty string stores report_md = "" together with a non-absent
docx_bytes (the DOCX of the empty report), so docx_bytes is not None even
though report_md is empty. -/
theorem C10_counterexample :
    (run_generation_from_output { transcript := some "x" } (GenResult.success "") s0).report_md
      = "" ∧
    (run_generation_from_output { transcript := some "x" } (GenResult.success "") s0).docx_bytes
      ≠ none := by
  decide

/-- Claim C10 (amended): after every action — generation (successful, rejected
by validation, or failed) and clear — docx_bytes is either None or equal to
markdown_to_docx applied to the current report_md (which may itself be the
empty report when the model returned empty text); and docx_bytes is None
whenever the DOCX option was disabled at generation time. -/
theorem C10_docx_consistency (form : FormState) (gen : GenResult) (st : SessionState) :
    docxConsistent (run_generation_from_output form gen st) ∧
    docxConsistent (clear_report st) ∧
    (clear_report st).docx_bytes = none ∧
    (incompleteGate (build_payload_from_state form) = true →
      (run_generation_from_output form gen st).docx_bytes = none) ∧
    (∀ msg, (run_generation_from_output form (GenResult.failure msg) st).docx_bytes = none) ∧
    (form.include_docx = some false →
      (run_generation_from_output form gen st).docx_bytes = none) := by
  refine ⟨?_, Or.inl rfl, rfl, ?_, ?_, ?_⟩
  · cases gen with
    | success t =>
      by_cases hg : incompleteGate (build_payload_from_state form) = true
      · rw [run_generation_from_output, if_pos hg]; exact Or.inl rfl
      · rw [run_generation_from_output, if_neg hg]
        by_cases hd : form.include_docx.getD true = true
        · right; simp [docxConsistent, hd]
        · left; simp [docxConsistent, hd]
    | failure m =>
      by_cases hg : incompleteGate (build_payload_from_state form) = true
      · rw [run_generation_from_output, if_pos hg]; exact Or.inl rfl
      · rw [run_generation_from_output, if_neg hg]; exact Or.inl rfl
  · intro hg
    cases gen with
    | success t => rw [run_generation_from_output, if_pos hg]; rfl
    | failure m => rw [run_generation_from_output, if_pos hg]; rfl
  · intro msg
    by_cases hg : incompleteGate (build_payload_from_state form) = true
    · rw [run_generation_from_output, if_pos hg]; rfl
    · rw [run_generation_from_output, if_neg hg]
  · intro hf
    cases gen with
    | success t =>
      by_cases hg : incompleteGate (build_payload_from_state form) = true
      · rw [run_generation_from_output, if_pos hg]; rfl
      · rw [run_generation_from_output, if_neg hg]; simp [hf]
    | failure m =>
      by_cases hg : incompleteGate (build_payload_from_state form) = true
      · rw [run_generation_from_output, if_pos hg]; rfl
      · rw [run_generation_from_output, if_neg hg]

/-- Witness for C10_docx_consistency: a validation-rejected generation and a
generation with the DOCX option disabled both leave docx_bytes absent. -/
theorem C10_witness :
    (run_generation_from_output {} (GenResult.success "x") s1).docx_bytes = none ∧
    (run_generation_from_output { include_docx := some false }
        (GenResult.success "t") s0).docx_bytes = none :=
  ⟨(C10_docx_consistency {} (GenResult.success "x") s1).2.2.2.1 (by decide),
   (C10_docx_consistency { include_docx := some false }
      (GenResult.success "t") s0).2.2.2.2.2 rfl⟩
